import Mathlib

/-!
Verification of the gjeldsur ingestion / presentation pipeline against its
natural-language specification.

Values are modelled as rationals (the source uses Python / JavaScript floats;
every claim settled here concerns the shape of the computation, field nullness
or the algebraic formula, none of which depends on rounding).
-/

namespace Gjeldsur

/-!
### Enrichment engine

Embeds the function named enrich in src/unnamed/part_002 (repository README,
lines 202-211):

    def enrich(df):
        s = df["value"]
        return {
            "latest_value": float(s.iloc[-1]),
            "mom_pct": float((s.iloc[-1]/s.iloc[-2]-1)*100) if len(s)>1 else None,
            "yoy_pct": float((s.iloc[-1]/s.iloc[-13]-1)*100) if len(s)>13 else None,
            "min": float(s.min()),
            "max": float(s.max())
        }

The value column of the data frame is modelled as a list of rationals (dates
play no role in enrich).  On an empty series the Python expression
s.iloc[-1] raises IndexError before the dictionary is built, so the whole
call fails; this is modelled by an Option result that is none exactly on the
empty list.  Note the source computes latest_value, min and max
unconditionally (they are not nullable in a successful result), while mom_pct
and yoy_pct are guarded only by the length tests len(s)>1 and len(s)>13.
-/

/-- Result record of the enrich routine as built by the source: the fields
latest_value, min and max are always computed (the source applies float to
them unconditionally), only mom_pct and yoy_pct can be None. -/
structure PySnapshot where
  latest_value : ℚ
  mom_pct : Option ℚ
  yoy_pct : Option ℚ
  min : ℚ
  max : ℚ
deriving DecidableEq

/-- Pandas negative positional indexing: iloc s k models s.iloc[-k].  The
source only evaluates it under a guard k less-or-equal length (len(s)>1
before iloc[-2], len(s)>13 before iloc[-13], nonemptiness before iloc[-1]),
where the defaulted lookup below equals the true element. -/
def iloc (s : List ℚ) (k : Nat) : ℚ := (s[s.length - k]?).getD 0

/-- Pandas Series.min over a nonempty series (the source calls it only on the
nonempty case, since iloc[-1] has already raised on the empty one). -/
def pandasMin : List ℚ → ℚ
  | [] => 0
  | v :: vs => vs.foldl Min.min v

/-- Pandas Series.max over a nonempty series. -/
def pandasMax : List ℚ → ℚ
  | [] => 0
  | v :: vs => vs.foldl Max.max v

/-- The enrich routine of src/unnamed/part_002 lines 202-211.  none models the
IndexError raised by s.iloc[-1] on an empty series.  Division is the ambient
field division; Python float division by zero likewise returns a value (a
non-finite one) rather than raising or yielding None, so the Option structure
of each field is faithful to the source. -/
def enrich (s : List ℚ) : Option PySnapshot :=
  if s.isEmpty then none
  else some
    { latest_value := iloc s 1
      mom_pct := if 1 < s.length then some ((iloc s 1 / iloc s 2 - 1) * 100) else none
      yoy_pct := if 13 < s.length then some ((iloc s 1 / iloc s 13 - 1) * 100) else none
      min := pandasMin s
      max := pandasMax s }

/-!
### Writer size policy and Validator consistency check

The writer and validator live in pipeline code (pipelines plus
scripts/verify_data.py) that is not among the provided source files, so they
are modelled from the spec.
-/

/-- Modelled from the spec: the size policy of the Artifact Writer, which truncates
the retained series, oldest points dropped first, so the primary artifact
stays under a byte budget; the budget determines how many most-recent points
k are kept. -/
def truncateSeries (k : Nat) (s : List ℚ) : List ℚ := s.drop (s.length - k)

/-- Modelled from the spec: the snapshot consistency check of the Validator, which
asserts snapshot values are internally consistent with the series stored in
the artifact, for example that max is the true maximum (and dually min the
true minimum) of that series. -/
def validatorConsistent (series : List ℚ) (r : PySnapshot) : Prop :=
  r.min = pandasMin series ∧ r.max = pandasMax series

instance (series : List ℚ) (r : PySnapshot) : Decidable (validatorConsistent series r) := by
  unfold validatorConsistent; infer_instance

/-!
### Web data model

Embeds the TypeScript interfaces IndicatorData (src/unnamed/part_001, the
Tile component, lines 5-27) and IndexData (src/web/src/pages/Dashboard.tsx,
lines 5-15).  TypeScript number is modelled as a rational, a nullable field
T-or-null as Option.
-/

/-- The inline source attribution type of the IndicatorData interface:
source: \x7b name: string; url: string \x7d. -/
structure Source where
  name : String
  url : String
deriving DecidableEq

/-- One element of the series array of the IndicatorData interface:
\x7b date: string; value: number \x7d. -/
structure SeriesPoint where
  date : String
  value : ℚ
deriving DecidableEq

/-- The snapshot member of the IndicatorData interface: five fields, each
declared number-or-null in the source. -/
structure Snapshot where
  latest_value : Option ℚ
  mom_pct : Option ℚ
  yoy_pct : Option ℚ
  min : Option ℚ
  max : Option ℚ
deriving DecidableEq

/-- The IndicatorData interface of src/unnamed/part_001 lines 5-27. -/
structure IndicatorData where
  id : String
  title : String
  unit : String
  frequency : String
  source : Source
  last_updated_utc : String
  series : List SeriesPoint
  snapshot : Snapshot
  politics_overlay : Bool
deriving DecidableEq

/-- One element of the indicators array of the IndexData interface in
Dashboard.tsx lines 6-13; the artifact location field is named path in the
source. -/
structure IndexEntry where
  id : String
  path : String
  title : String
  unit : String
  frequency : String
  politics_overlay : Bool
deriving DecidableEq

/-- The IndexData interface of src/web/src/pages/Dashboard.tsx lines 5-15,
the shape consumed by the dashboard index reader. -/
structure IndexData where
  indicators : List IndexEntry
  last_updated : String
deriving DecidableEq

/-- Field tuple of a Source value. -/
def sourceRepr (s : Source) : String × String := (s.name, s.url)

/-- Field tuple of a SeriesPoint value. -/
def seriesPointRepr (p : SeriesPoint) : String × ℚ := (p.date, p.value)

/-- Field tuple of a Snapshot value: five nullable numbers. -/
def snapshotRepr (r : Snapshot) :
    Option ℚ × Option ℚ × Option ℚ × Option ℚ × Option ℚ :=
  (r.latest_value, r.mom_pct, r.yoy_pct, r.min, r.max)

/-- Field tuple of an IndicatorData value, in source declaration order. -/
def indicatorDataRepr (a : IndicatorData) :
    String × String × String × String × (String × String) × String ×
      List (String × ℚ) × (Option ℚ × Option ℚ × Option ℚ × Option ℚ × Option ℚ) × Bool :=
  (a.id, a.title, a.unit, a.frequency, sourceRepr a.source, a.last_updated_utc,
    a.series.map seriesPointRepr, snapshotRepr a.snapshot, a.politics_overlay)

/-- Field tuple of an IndexEntry value, in source declaration order. -/
def indexEntryRepr (e : IndexEntry) :
    String × String × String × String × String × Bool :=
  (e.id, e.path, e.title, e.unit, e.frequency, e.politics_overlay)

/-- Field tuple of an IndexData value. -/
def indexDataRepr (x : IndexData) : List (String × String × String × String × String × Bool) × String :=
  (x.indicators.map indexEntryRepr, x.last_updated)

/-!
### Dashboard loader

Embeds loadDashboard of src/web/src/pages/Dashboard.tsx lines 24-66.  Each
indicator of the index is fetched inside its own try/catch: a failing fetch
stores an error message under the id of that indicator and resolves to a null
data slot, a succeeding fetch resolves to the data of the indicator; afterwards
only the non-null results are collected into the indicator-data record.  The
per-indicator fetch is modelled as a function into Except, the error string
being the message stored by the catch branch (the FetchError message, or the
generic fallback text).
-/

/-- The errors record accumulated by the catch branch of loadDashboard:
one (id, message) entry per indicator whose fetch failed. -/
def loadErrors (fetchD : String → Except String IndicatorData)
    (entries : List IndexEntry) : List (String × String) :=
  entries.filterMap fun ind =>
    match fetchD ind.id with
    | Except.ok _ => none
    | Except.error e => some (ind.id, e)

/-- The newIndicatorData record built by loadDashboard from the settled
results: one (id, data) entry per indicator whose fetch succeeded. -/
def loadIndicatorData (fetchD : String → Except String IndicatorData)
    (entries : List IndexEntry) : List (String × IndicatorData) :=
  entries.filterMap fun ind =>
    match fetchD ind.id with
    | Except.ok d => some (ind.id, d)
    | Except.error _ => none

/-!
### Spark sparkline component

Embeds the Spark component of src/unnamed/part_000: the render branch of
lines 135-152 (the No data placeholder) against lines 154-173 (the chart
container), and the chart-initialization effect of lines 29-40.  The data
prop may be absent (the guard tests !data), modelled as an Option.
-/

/-- What the Spark component renders: the No data placeholder of lines
135-152, or the chart container of lines 154-173 (whose party-bands overlay
is mounted when showPolitics and isLoaded both hold). -/
inductive SparkView
  | noData
  | chart (withPartyBands : Bool)
deriving DecidableEq

/-- The render branch of Spark: the placeholder is returned exactly when the
data prop is absent or empty (line 135). -/
def sparkRender (data : Option (List SeriesPoint)) (showPolitics isLoaded : Bool) :
    SparkView :=
  match data with
  | none => SparkView.noData
  | some [] => SparkView.noData
  | some (_ :: _) => SparkView.chart (showPolitics && isLoaded)

/-- Whether the effect of lines 29-40 initializes an ECharts instance: it
returns early when the container ref is unset or the data prop is absent or
empty, and otherwise initializes only when no instance exists yet. -/
def sparkEffectInits (refSet hasInstance : Bool)
    (data : Option (List SeriesPoint)) : Bool :=
  if !refSet then false
  else
    match data with
    | none => false
    | some [] => false
    | some (_ :: _) => !hasInstance

/-!
### Field-mapping normalizer

The normalizer itself (the adapters, for example the fetch_and_normalize of
the ssb_px adapter referenced by src/unnamed/part_002 lines 194-200) is not
among the provided source files; only the catalog guess-lists
date_field_guess and value_field_guess of src/unnamed/part_002 lines 162-180
are.  The guess-list resolution is therefore modelled from the spec.
-/

/-- Case-insensitive exact match of a raw field name against a candidate,
via lowercasing both sides. -/
def ciMatch (f g : String) : Bool :=
  String.mk (f.data.map Char.toLower) == String.mk (g.data.map Char.toLower)

/-- Modelled from the spec: the normalizer scans the guess list in order and
selects the first candidate present among the raw field names under
case-insensitive exact match; none when no candidate is present. -/
def selectField (guesses rawFields : List String) : Option String :=
  guesses.find? fun g => rawFields.any fun f => ciMatch f g

/-- The error tag raised by the normalizer when field mapping fails. -/
inductive FetchError
  | schema_mismatch
deriving DecidableEq

/-- Modelled from the spec: resolution of both catalog guess-lists (date
field and value field) against the raw field names; a schema-mismatch
failure when no candidate of one of the two lists matches. -/
def resolveFields (dateGuess valueGuess rawFields : List String) :
    Except FetchError (String × String) :=
  match selectField dateGuess rawFields, selectField valueGuess rawFields with
  | some d, some v => Except.ok (d, v)
  | _, _ => Except.error FetchError.schema_mismatch

/-!
### Helper lemmas
-/

theorem iloc_eq_get (s : List ℚ) (k : Nat) (h1 : 0 < k) (h2 : k ≤ s.length) :
    iloc s k = s.get ⟨s.length - k, by omega⟩ := by
  unfold iloc
  rw [List.getElem?_eq_getElem (by omega)]
  simp [List.get_eq_getElem]

theorem enrich_eq_some_of_ne_nil (s : List ℚ) (h : s ≠ []) :
    enrich s = some
      { latest_value := iloc s 1
        mom_pct := if 1 < s.length then some ((iloc s 1 / iloc s 2 - 1) * 100) else none
        yoy_pct := if 13 < s.length then some ((iloc s 1 / iloc s 13 - 1) * 100) else none
        min := pandasMin s
        max := pandasMax s } := by
  rw [enrich, if_neg]
  simp [h]

theorem foldl_min_le_init (v : ℚ) (vs : List ℚ) : vs.foldl Min.min v ≤ v := by
  induction vs generalizing v with
  | nil => simp
  | cons a as ih => exact le_trans (ih (Min.min v a)) (min_le_left v a)

theorem foldl_min_le_mem (x : ℚ) (vs : List ℚ) : ∀ v, x ∈ vs → vs.foldl Min.min v ≤ x := by
  induction vs with
  | nil => intro v h; cases h
  | cons a as ih =>
    intro v h
    rcases List.mem_cons.mp h with rfl | h2
    · exact le_trans (foldl_min_le_init (Min.min v x) as) (min_le_right v x)
    · exact ih (Min.min v a) h2

theorem foldl_min_mem (v : ℚ) (vs : List ℚ) : vs.foldl Min.min v ∈ v :: vs := by
  induction vs generalizing v with
  | nil => simp
  | cons a as ih =>
    have h := ih (Min.min v a)
    simp only [List.foldl_cons]
    rcases List.mem_cons.mp h with heq | hmem
    · rw [heq]
      rcases min_choice v a with hc | hc <;> rw [hc] <;> simp
    · exact List.mem_cons_of_mem _ (List.mem_cons_of_mem _ hmem)

theorem foldl_max_init_le (v : ℚ) (vs : List ℚ) : v ≤ vs.foldl Max.max v := by
  induction vs generalizing v with
  | nil => simp
  | cons a as ih => exact le_trans (le_max_left v a) (ih (Max.max v a))

theorem foldl_max_mem_le (x : ℚ) (vs : List ℚ) : ∀ v, x ∈ vs → x ≤ vs.foldl Max.max v := by
  induction vs with
  | nil => intro v h; cases h
  | cons a as ih =>
    intro v h
    rcases List.mem_cons.mp h with rfl | h2
    · exact le_trans (le_max_right v x) (foldl_max_init_le (Max.max v x) as)
    · exact ih (Max.max v a) h2

theorem foldl_max_mem (v : ℚ) (vs : List ℚ) : vs.foldl Max.max v ∈ v :: vs := by
  induction vs generalizing v with
  | nil => simp
  | cons a as ih =>
    have h := ih (Max.max v a)
    simp only [List.foldl_cons]
    rcases List.mem_cons.mp h with heq | hmem
    · rw [heq]
      rcases max_choice v a with hc | hc <;> rw [hc] <;> simp
    · exact List.mem_cons_of_mem _ (List.mem_cons_of_mem _ hmem)

theorem pandasMin_mem (s : List ℚ) (h : s ≠ []) : pandasMin s ∈ s := by
  cases s with
  | nil => exact absurd rfl h
  | cons v vs => exact foldl_min_mem v vs

theorem pandasMin_le (s : List ℚ) (h : s ≠ []) : ∀ x ∈ s, pandasMin s ≤ x := by
  cases s with
  | nil => exact absurd rfl h
  | cons v vs =>
    intro x hx
    rcases List.mem_cons.mp hx with rfl | h2
    · exact foldl_min_le_init x vs
    · exact foldl_min_le_mem x vs v h2

theorem pandasMax_mem (s : List ℚ) (h : s ≠ []) : pandasMax s ∈ s := by
  cases s with
  | nil => exact absurd rfl h
  | cons v vs => exact foldl_max_mem v vs

theorem le_pandasMax (s : List ℚ) (h : s ≠ []) : ∀ x ∈ s, x ≤ pandasMax s := by
  cases s with
  | nil => exact absurd rfl h
  | cons v vs =>
    intro x hx
    rcases List.mem_cons.mp hx with rfl | h2
    · exact foldl_max_init_le x vs
    · exact foldl_max_mem_le x vs v h2

/-!
### Claims about the enrichment engine
-/

/-- Claim C1, counterexample.  The claim asserts that a monthly series with at
least 13 points has a non-null yoy_pct; but the source guard is len(s)>13, so
on a series of exactly 13 points the code yields None for yoy_pct. -/
theorem yoy_pct_null_at_thirteen_points :
    (enrich [1, 2, 3, 4, 5, 6, 7, 8, 9, 10, 11, 12, 13]).map PySnapshot.yoy_pct
      = some none := rfl

/-- Claim C1, amended.  The yoy_pct field of the enrich routine is defined
exactly for series of MORE than 13 points (at least 14), where it equals the
percent change against the point 12 positions earlier, computed as
(s[-1]/s[-13]-1)*100; for a nonempty series of at most 13 points it is
null. -/
theorem yoy_pct_enrich (s : List ℚ) :
    (∀ h : 13 < s.length,
      ∃ r, enrich s = some r ∧
        r.yoy_pct = some ((s.get ⟨s.length - 1, by omega⟩ /
          s.get ⟨s.length - 13, by omega⟩ - 1) * 100)) ∧
    (s ≠ [] → s.length ≤ 13 →
      ∃ r, enrich s = some r ∧ r.yoy_pct = none) := by
  constructor
  · intro h
    have hne : s ≠ [] := by
      intro he
      rw [he] at h
      simp at h
    rw [enrich_eq_some_of_ne_nil s hne]
    refine ⟨_, rfl, ?_⟩
    simp only [if_pos h]
    rw [iloc_eq_get s 1 (by omega) (by omega), iloc_eq_get s 13 (by omega) (by omega)]
  · intro hne hle
    rw [enrich_eq_some_of_ne_nil s hne]
    exact ⟨_, rfl, by simp [Nat.not_lt.mpr hle]⟩

/-- Claim C1, witness: a 14-point series whose last point has doubled against
the point 12 positions earlier, giving a year-over-year change of 100. -/
theorem yoy_pct_enrich_witness :
    ∃ r, enrich [2, 2, 2, 2, 2, 2, 2, 2, 2, 2, 2, 2, 2, 4] = some r ∧
      r.yoy_pct = some 100 := by
  obtain ⟨r, hr, hy⟩ :=
    (yoy_pct_enrich [2, 2, 2, 2, 2, 2, 2, 2, 2, 2, 2, 2, 2, 4]).1 (by norm_num)
  refine ⟨r, hr, ?_⟩
  rw [hy]
  norm_num [List.get_eq_getElem]

/-- Claim C5, counterexample.  The claim asserts mom_pct is null for every
series of fewer than 2 points; on the empty series the source raises
IndexError before any field is produced, so there is no snapshot whose
mom_pct could be null. -/
theorem mom_pct_no_result_on_empty :
    ¬ ∃ r, enrich [] = some r ∧ r.mom_pct = none := by
  simp [enrich]

/-- Claim C5, amended.  For a series of at least 2 points mom_pct equals the
percent change of the last point against the immediately preceding one,
(s[-1]/s[-2]-1)*100; for a one-point series it is null; on the empty series
the routine fails (raises) instead of producing a snapshot. -/
theorem mom_pct_enrich (s : List ℚ) :
    (∀ h : 2 ≤ s.length,
      ∃ r, enrich s = some r ∧
        r.mom_pct = some ((s.get ⟨s.length - 1, by omega⟩ /
          s.get ⟨s.length - 2, by omega⟩ - 1) * 100)) ∧
    (s.length = 1 → ∃ r, enrich s = some r ∧ r.mom_pct = none) ∧
    (s = [] → enrich s = none) := by
  refine ⟨?_, ?_, ?_⟩
  · intro h
    have hne : s ≠ [] := by
      intro he
      rw [he] at h
      simp at h
    rw [enrich_eq_some_of_ne_nil s hne]
    refine ⟨_, rfl, ?_⟩
    simp only [if_pos (show 1 < s.length by omega)]
    rw [iloc_eq_get s 1 (by omega) (by omega), iloc_eq_get s 2 (by omega) (by omega)]
  · intro h1
    have hne : s ≠ [] := by
      intro he
      rw [he] at h1
      simp at h1
    rw [enrich_eq_some_of_ne_nil s hne]
    exact ⟨_, rfl, by simp [h1]⟩
  · intro he
    rw [he]
    rfl

/-- Claim C5, witness: a two-point series that doubles, giving a
month-over-month change of 100. -/
theorem mom_pct_enrich_witness :
    ∃ r, enrich [3, 6] = some r ∧ r.mom_pct = some 100 := by
  obtain ⟨r, hr, hm⟩ := (mom_pct_enrich [3, 6]).1 (by norm_num)
  refine ⟨r, hr, ?_⟩
  rw [hm]
  norm_num [List.get_eq_getElem]

/-- Claim C4, counterexample.  The claim asserts the routine is total on the
empty series with a null latest_value; but the source evaluates s.iloc[-1]
unconditionally, which raises IndexError on the empty series, so no snapshot
is produced at all. -/
theorem enrich_fails_on_empty : ¬ ∃ r, enrich ([] : List ℚ) = some r := by
  simp [enrich]

/-- Claim C4, amended.  For every nonempty series latest_value equals the
value of the last point; on the empty series the routine raises (modelled as
none) rather than returning a snapshot with a null latest_value. -/
theorem latest_value_enrich (s : List ℚ) :
    (∀ h : s ≠ [], ∃ r, enrich s = some r ∧ r.latest_value = s.getLast h) ∧
    (s = [] → enrich s = none) := by
  constructor
  · intro h
    have hlen : 0 < s.length := List.length_pos.mpr h
    rw [enrich_eq_some_of_ne_nil s h]
    refine ⟨_, rfl, ?_⟩
    rw [iloc_eq_get s 1 (by omega) (by omega), List.getLast_eq_getElem]
    simp [List.get_eq_getElem]
  · intro he
    rw [he]
    rfl

/-- Claim C4, witness: the last value of a concrete two-point series. -/
theorem latest_value_enrich_witness :
    ∃ r, enrich [5, 7] = some r ∧ r.latest_value = 7 := by
  obtain ⟨r, hr, hl⟩ := (latest_value_enrich [5, 7]).1 (by simp)
  exact ⟨r, hr, by rw [hl]; rfl⟩

/-- Claim C3, counterexample.  The claim asserts a zero denominator yields a
null delta; but the source computes (s.iloc[-1]/s.iloc[-2]-1)*100 whenever
len(s)>1 with no zero test (in Python float semantics division by zero
returns an infinite value rather than raising), so on the series 0, 5 the
mom_pct field is non-null. -/
theorem mom_pct_computed_on_zero_denominator :
    ∃ r, enrich [0, 5] = some r ∧ r.mom_pct ≠ none := by
  refine ⟨_, rfl, ?_⟩
  simp

/-- Claim C3, amended.  Nullness of the percentage deltas depends only on the
length of the series (the guards len(s)>1 and len(s)>13), never on the value
of the denominator point: a missing denominator point yields null, but a
present zero denominator still yields a computed non-null value. -/
theorem delta_nullness_depends_only_on_length (s : List ℚ) (h : s ≠ []) :
    ∃ r, enrich s = some r ∧
      (r.mom_pct = none ↔ s.length < 2) ∧
      (r.yoy_pct = none ↔ s.length ≤ 13) := by
  rw [enrich_eq_some_of_ne_nil s h]
  refine ⟨_, rfl, ?_, ?_⟩
  · by_cases h1 : 1 < s.length
    · simp [h1]
      try omega
    · simp [h1]
      try omega
  · by_cases h2 : 13 < s.length
    · simp [h2]
      try omega
    · simp [h2]
      try omega

/-- Claim C3, witness: on a three-point series both deltas have the nullness
dictated by the length guards. -/
theorem delta_nullness_witness :
    ∃ r, enrich [1, 2, 3] = some r ∧
      (r.mom_pct = none ↔ ([1, 2, 3] : List ℚ).length < 2) ∧
      (r.yoy_pct = none ↔ ([1, 2, 3] : List ℚ).length ≤ 13) :=
  delta_nullness_depends_only_on_length [1, 2, 3] (by simp)

/-!
### Claims about min and max, the writer size policy and the validator
-/

/-- Claim C7, counterexample.  The snapshot extremes are computed over the
full series, but the artifact series may be truncated (oldest points dropped
first); when the truncation drops the point attaining the maximum, the
modelled validator consistency check (max must be the true maximum of the
artifact series) rejects the artifact: series 10, 1, 2 with a byte budget
retaining 2 points keeps 1, 2 while the snapshot max stays 10. -/
theorem validator_rejects_truncated_extremum :
    ∃ r, enrich [10, 1, 2] = some r ∧
      ¬ validatorConsistent (truncateSeries 2 [10, 1, 2]) r := by
  refine ⟨_, rfl, ?_⟩
  intro hc
  have hmax := hc.2
  norm_num [truncateSeries, pandasMax, List.foldl, max_def] at hmax

theorem pandasMin_of_subset_attained (s t : List ℚ) (hsub : t ⊆ s) (hs : s ≠ [])
    (hmem : pandasMin s ∈ t) : pandasMin t = pandasMin s := by
  have ht : t ≠ [] := by
    intro he
    rw [he] at hmem
    cases hmem
  apply le_antisymm
  · exact pandasMin_le t ht (pandasMin s) hmem
  · exact pandasMin_le s hs (pandasMin t) (hsub (pandasMin_mem t ht))

theorem pandasMax_of_subset_attained (s t : List ℚ) (hsub : t ⊆ s) (hs : s ≠ [])
    (hmem : pandasMax s ∈ t) : pandasMax t = pandasMax s := by
  have ht : t ≠ [] := by
    intro he
    rw [he] at hmem
    cases hmem
  apply le_antisymm
  · exact le_pandasMax s hs (pandasMax t) (hsub (pandasMax_mem t ht))
  · exact le_pandasMax t ht (pandasMax s) hmem

/-- Claim C7, amended.  For every nonempty series the snapshot min and max of
the enrich routine are the true extremes of the full series (attained members
that bound every value); the validator consistency check accepts the snapshot
against the untruncated series, and more generally against every truncated
artifact series (any byte budget, oldest points dropped first) that still
attains both extremes. -/
theorem min_max_enrich (s : List ℚ) (h : s ≠ []) :
    ∃ r, enrich s = some r ∧
      r.min ∈ s ∧ (∀ x ∈ s, r.min ≤ x) ∧
      r.max ∈ s ∧ (∀ x ∈ s, x ≤ r.max) ∧
      validatorConsistent s r ∧
      (∀ k, r.min ∈ truncateSeries k s → r.max ∈ truncateSeries k s →
        validatorConsistent (truncateSeries k s) r) := by
  rw [enrich_eq_some_of_ne_nil s h]
  refine ⟨_, rfl, pandasMin_mem s h, pandasMin_le s h, pandasMax_mem s h,
    le_pandasMax s h, ⟨rfl, rfl⟩, ?_⟩
  intro k hmin hmax
  constructor
  · exact (pandasMin_of_subset_attained s (truncateSeries k s)
      (List.drop_subset _ _) h hmin).symm
  · exact (pandasMax_of_subset_attained s (truncateSeries k s)
      (List.drop_subset _ _) h hmax).symm

/-- Claim C7, witness: on the series 3, 1, 5 the snapshot extremes are
attained and bound every value, the consistency check passes against the
untruncated series, and also against the truncation to the last 2 points,
1, 5, which still attains both extremes. -/
theorem min_max_enrich_witness :
    ∃ r, enrich [3, 1, 5] = some r ∧
      r.min ∈ [3, 1, 5] ∧ (∀ x ∈ ([3, 1, 5] : List ℚ), r.min ≤ x) ∧
      r.max ∈ [3, 1, 5] ∧ (∀ x ∈ ([3, 1, 5] : List ℚ), x ≤ r.max) ∧
      validatorConsistent [3, 1, 5] r ∧
      validatorConsistent (truncateSeries 2 [3, 1, 5]) r := by
  obtain ⟨r, hr, hminmem, hminle, hmaxmem, hmaxle, hacc, htr⟩ :=
    min_max_enrich [3, 1, 5] (by simp)
  have hre := hr
  rw [enrich_eq_some_of_ne_nil [3, 1, 5] (by simp)] at hre
  obtain rfl := Option.some.inj hre
  refine ⟨_, hr, hminmem, hminle, hmaxmem, hmaxle, hacc, ?_⟩
  apply htr 2
  · norm_num [truncateSeries, pandasMin, List.foldl, min_def]
  · norm_num [truncateSeries, pandasMax, List.foldl, max_def]

/-!
### Claim about per-indicator failure isolation
-/

/-- Claim C2.  In the dashboard loader (the catalog consumer present in the
source), each indicator of the index is fetched inside its own try/catch: an
indicator whose fetch fails is recorded, alone, in the errors record and gets
no data entry, every indicator whose own fetch succeeds is loaded into the
indicator-data record regardless of failures among the other indicators, and every
indicator reaches one of the two terminal records, so the failure of a single
indicator never aborts the load of the rest. -/
theorem dashboard_partial_failure_isolation
    (fetchD : String → Except String IndicatorData) (entries : List IndexEntry)
    (huniq : (entries.map IndexEntry.id).Nodup) (ind : IndexEntry)
    (hmem : ind ∈ entries) :
    (∀ e, fetchD ind.id = Except.error e →
      (ind.id, e) ∈ loadErrors fetchD entries ∧
      ∀ d, (ind.id, d) ∉ loadIndicatorData fetchD entries) ∧
    (∀ d, fetchD ind.id = Except.ok d →
      (ind.id, d) ∈ loadIndicatorData fetchD entries) ∧
    ((∃ d, (ind.id, d) ∈ loadIndicatorData fetchD entries) ∨
      (∃ e, (ind.id, e) ∈ loadErrors fetchD entries)) := by
  refine ⟨?_, ?_, ?_⟩
  · intro e he
    constructor
    · exact List.mem_filterMap.mpr ⟨ind, hmem, by simp [he]⟩
    · intro d hd
      obtain ⟨a, ha, hfa⟩ := List.mem_filterMap.mp hd
      cases hfd : fetchD a.id with
      | error e2 =>
        rw [hfd] at hfa
        simp at hfa
      | ok d2 =>
        rw [hfd] at hfa
        simp at hfa
        have haid : a = ind := List.inj_on_of_nodup_map huniq ha hmem hfa.1
        rw [haid] at hfd
        rw [hfd] at he
        cases he
  · intro d hd
    exact List.mem_filterMap.mpr ⟨ind, hmem, by simp [hd]⟩
  · cases hfd : fetchD ind.id with
    | ok d => exact Or.inl ⟨d, List.mem_filterMap.mpr ⟨ind, hmem, by simp [hfd]⟩⟩
    | error e => exact Or.inr ⟨e, List.mem_filterMap.mpr ⟨ind, hmem, by simp [hfd]⟩⟩

/-- A concrete indicator artifact used by the partial-failure witness run. -/
def mockArtifact : IndicatorData :=
  { id := "a"
    title := "Mock indicator"
    unit := "index"
    frequency := "monthly"
    source := { name := "SSB", url := "https://example.org" }
    last_updated_utc := "2026-01-01T00:00:00Z"
    series := []
    snapshot := { latest_value := none, mom_pct := none, yoy_pct := none,
                  min := none, max := none }
    politics_overlay := false }

/-- A concrete index entry used by the partial-failure witness run. -/
def mockEntry (i : String) : IndexEntry :=
  { id := i
    path := "data/" ++ i
    title := i
    unit := "index"
    frequency := "monthly"
    politics_overlay := false }

/-- A fetch in which exactly the middle indicator of a three-entry catalog
fails with a schema-mismatch message. -/
def mockFetch : String → Except String IndicatorData := fun i =>
  if i = "b" then Except.error "schema_mismatch" else Except.ok mockArtifact

/-- Claim C2, witness: in a three-indicator run where the second indicator
always fails with a schema mismatch, the second indicator alone lands in the
errors record while the first and third are still loaded. -/
theorem dashboard_partial_failure_isolation_witness :
    ("b", "schema_mismatch")
        ∈ loadErrors mockFetch [mockEntry "a", mockEntry "b", mockEntry "c"] ∧
    ("a", mockArtifact)
        ∈ loadIndicatorData mockFetch [mockEntry "a", mockEntry "b", mockEntry "c"] ∧
    ("c", mockArtifact)
        ∈ loadIndicatorData mockFetch [mockEntry "a", mockEntry "b", mockEntry "c"] := by
  have hu : (([mockEntry "a", mockEntry "b", mockEntry "c"]).map IndexEntry.id).Nodup := by
    simp [mockEntry]
  refine ⟨?_, ?_, ?_⟩
  · exact ((dashboard_partial_failure_isolation mockFetch _ hu (mockEntry "b")
      (by simp)).1 "schema_mismatch" (by simp [mockEntry, mockFetch])).1
  · exact (dashboard_partial_failure_isolation mockFetch _ hu (mockEntry "a")
      (by simp)).2.1 mockArtifact (by simp [mockEntry, mockFetch])
  · exact (dashboard_partial_failure_isolation mockFetch _ hu (mockEntry "c")
      (by simp)).2.1 mockArtifact (by simp [mockEntry, mockFetch])

/-!
### Claim about the normalizer guess-list resolution
-/

/-- Claim C6.  The normalizer selects exactly the first candidate of the
guess list, in list order, that is present among the raw field names under
case-insensitive exact match: a selection of c means c matches and splits the
guess list so that every earlier candidate fails to match; and when no
candidate of the date list or no candidate of the value list matches, field
resolution fails with a schema-mismatch error. -/
theorem normalizer_guess_order (dateGuess valueGuess rawFields : List String) :
    (∀ c, selectField dateGuess rawFields = some c ↔
      (rawFields.any fun f => ciMatch f c) = true ∧
        ∃ pre post, dateGuess = pre ++ c :: post ∧
          ∀ g ∈ pre, (rawFields.any fun f => ciMatch f g) = false) ∧
    (((∀ g ∈ dateGuess, (rawFields.any fun f => ciMatch f g) = false) ∨
      (∀ g ∈ valueGuess, (rawFields.any fun f => ciMatch f g) = false)) →
      resolveFields dateGuess valueGuess rawFields
        = Except.error FetchError.schema_mismatch) := by
  constructor
  · intro c
    rw [selectField, List.find?_eq_some]
    simp
  · intro h
    rcases h with h | h
    · have hnone : selectField dateGuess rawFields = none := by
        rw [selectField, List.find?_eq_none]
        intro x hx
        simp [h x hx]
      rw [resolveFields, hnone]
    · have hnone : selectField valueGuess rawFields = none := by
        rw [selectField, List.find?_eq_none]
        intro x hx
        simp [h x hx]
      rw [resolveFields, hnone]
      rcases selectField dateGuess rawFields with _ | d <;> rfl

/-- Claim C6, witness: the guess list Month, time, Tid against a raw field
named Tid selects Tid (the two earlier candidates fail), and a value guess
list with no case-insensitive match among the raw fields makes resolution
fail with a schema mismatch. -/
theorem normalizer_guess_order_witness :
    selectField ["Month", "time", "Tid"] ["Tid", "value"] = some "Tid" ∧
    resolveFields ["Month", "time", "Tid"] ["Belop"] ["Tid", "value"]
      = Except.error FetchError.schema_mismatch := by
  constructor
  · exact ((normalizer_guess_order ["Month", "time", "Tid"] ["Belop"]
      ["Tid", "value"]).1 "Tid").mpr
      ⟨by decide, ["Month", "time"], [], rfl, by decide⟩
  · exact (normalizer_guess_order ["Month", "time", "Tid"] ["Belop"]
      ["Tid", "value"]).2 (Or.inr (by decide))

/-!
### Claims about the artifact shapes
-/

theorem seriesPoint_roundtrip (l : List SeriesPoint) :
    l.map ((fun q => SeriesPoint.mk q.1 q.2) ∘ seriesPointRepr) = l := by
  induction l with
  | nil => rfl
  | cons p ps ih =>
    cases p
    simp only [List.map_cons, ih, Function.comp, seriesPointRepr]

theorem seriesPoint_roundtrip2 (l : List (String × ℚ)) :
    l.map (seriesPointRepr ∘ fun q => SeriesPoint.mk q.1 q.2) = l := by
  induction l with
  | nil => rfl
  | cons p ps ih => simp [seriesPointRepr, ih]

theorem indexEntry_roundtrip2
    (l : List (String × String × String × String × String × Bool)) :
    l.map (indexEntryRepr ∘ fun t =>
      IndexEntry.mk t.1 t.2.1 t.2.2.1 t.2.2.2.1 t.2.2.2.2.1 t.2.2.2.2.2) = l := by
  induction l with
  | nil => rfl
  | cons p ps ih => simp [indexEntryRepr, ih]

theorem indexEntry_roundtrip (l : List IndexEntry) :
    l.map ((fun t =>
      IndexEntry.mk t.1 t.2.1 t.2.2.1 t.2.2.2.1 t.2.2.2.2.1 t.2.2.2.2.2)
        ∘ indexEntryRepr) = l := by
  induction l with
  | nil => rfl
  | cons p ps ih =>
    cases p
    simp only [List.map_cons, ih, Function.comp, indexEntryRepr]

/-- Claim C8.  The IndicatorData interface carries exactly the fields id,
title, unit, frequency, source (itself exactly name and url),
last_updated_utc, series (a list of date-value points), snapshot and
politics_overlay, and the snapshot consists of exactly the five nullable
fields latest_value, mom_pct, yoy_pct, min and max: each level of the shape
is in bijection with the corresponding tuple of field types, option-valued at
every nullable field. -/
theorem indicator_artifact_shape :
    Function.Bijective indicatorDataRepr ∧ Function.Bijective snapshotRepr ∧
    Function.Bijective seriesPointRepr ∧ Function.Bijective sourceRepr := by
  refine ⟨?_, ?_, ?_, ?_⟩
  · rw [Function.bijective_iff_has_inverse]
    refine ⟨fun t =>
      { id := t.1
        title := t.2.1
        unit := t.2.2.1
        frequency := t.2.2.2.1
        source := { name := t.2.2.2.2.1.1, url := t.2.2.2.2.1.2 }
        last_updated_utc := t.2.2.2.2.2.1
        series := t.2.2.2.2.2.2.1.map (fun q => SeriesPoint.mk q.1 q.2)
        snapshot :=
          { latest_value := t.2.2.2.2.2.2.2.1.1
            mom_pct := t.2.2.2.2.2.2.2.1.2.1
            yoy_pct := t.2.2.2.2.2.2.2.1.2.2.1
            min := t.2.2.2.2.2.2.2.1.2.2.2.1
            max := t.2.2.2.2.2.2.2.1.2.2.2.2 }
        politics_overlay := t.2.2.2.2.2.2.2.2 }, ?_, ?_⟩
    · intro a
      obtain ⟨i, ti, u, fr, ⟨sn, su⟩, lu, se, ⟨l5, m5, y5, mi5, ma5⟩, po⟩ := a
      simp [indicatorDataRepr, sourceRepr, snapshotRepr, seriesPoint_roundtrip]
    · intro t
      obtain ⟨i, ti, u, fr, ⟨sn, su⟩, lu, se, ⟨l5, m5, y5, mi5, ma5⟩, po⟩ := t
      simp [indicatorDataRepr, sourceRepr, snapshotRepr, seriesPoint_roundtrip2]
  · rw [Function.bijective_iff_has_inverse]
    refine ⟨fun t =>
      { latest_value := t.1, mom_pct := t.2.1, yoy_pct := t.2.2.1,
        min := t.2.2.2.1, max := t.2.2.2.2 }, ?_, ?_⟩
    · intro a
      obtain ⟨l5, m5, y5, mi5, ma5⟩ := a
      rfl
    · intro t
      obtain ⟨l5, m5, y5, mi5, ma5⟩ := t
      rfl
  · rw [Function.bijective_iff_has_inverse]
    refine ⟨fun t => { date := t.1, value := t.2 }, ?_, ?_⟩
    · intro a
      obtain ⟨d, v⟩ := a
      rfl
    · intro t
      obtain ⟨d, v⟩ := t
      rfl
  · rw [Function.bijective_iff_has_inverse]
    refine ⟨fun t => { name := t.1, url := t.2 }, ?_, ?_⟩
    · intro a
      obtain ⟨n, u⟩ := a
      rfl
    · intro t
      obtain ⟨n, u⟩ := t
      rfl

/-- Claim C9.  The IndexData interface consumed by the dashboard index reader
is exactly an ordered list of per-indicator records together with a run-level
last_updated timestamp, each record carrying exactly an id, an artifact
location (the field named path in the source), a title, a unit, a frequency
and a politics_overlay flag: both levels of the shape are in bijection with
the corresponding tuples of field types. -/
theorem index_artifact_shape :
    Function.Bijective indexDataRepr ∧ Function.Bijective indexEntryRepr := by
  constructor
  · rw [Function.bijective_iff_has_inverse]
    refine ⟨fun t =>
      { indicators := t.1.map (fun e =>
          IndexEntry.mk e.1 e.2.1 e.2.2.1 e.2.2.2.1 e.2.2.2.2.1 e.2.2.2.2.2)
        last_updated := t.2 }, ?_, ?_⟩
    · intro a
      obtain ⟨inds, lu⟩ := a
      simp [indexDataRepr, indexEntry_roundtrip]
    · intro t
      obtain ⟨inds, lu⟩ := t
      simp [indexDataRepr, indexEntry_roundtrip2]
  · rw [Function.bijective_iff_has_inverse]
    refine ⟨fun t =>
      IndexEntry.mk t.1 t.2.1 t.2.2.1 t.2.2.2.1 t.2.2.2.2.1 t.2.2.2.2.2, ?_, ?_⟩
    · intro a
      obtain ⟨i, p, ti, u, fr, po⟩ := a
      rfl
    · intro t
      obtain ⟨i, p, ti, u, fr, po⟩ := t
      rfl

/-!
### Claim about the sparkline empty-data guard
-/

/-- Claim C10.  When the data prop of the Spark component is absent or the
series is empty, the component renders the No data placeholder and its effect
never initializes an ECharts instance; conversely the effect initializes a
chart only when the series has at least one point. -/
theorem spark_no_data_guard (data : Option (List SeriesPoint)) :
    (data = none ∨ data = some [] →
      (∀ sp il, sparkRender data sp il = SparkView.noData) ∧
      (∀ r i, sparkEffectInits r i data = false)) ∧
    (∀ r i, sparkEffectInits r i data = true → ∃ p ps, data = some (p :: ps)) := by
  constructor
  · intro h
    rcases h with rfl | rfl
    · exact ⟨fun sp il => rfl, fun r i => by cases r <;> rfl⟩
    · exact ⟨fun sp il => rfl, fun r i => by cases r <;> rfl⟩
  · intro r i h
    rcases data with _ | ⟨_ | ⟨p, ps⟩⟩
    · cases r <;> simp [sparkEffectInits] at h
    · cases r <;> simp [sparkEffectInits] at h
    · exact ⟨p, ps, rfl⟩

/-- Claim C10, witness: the empty series renders the placeholder without
initializing a chart, and an initialized chart forces a nonempty series. -/
theorem spark_no_data_guard_witness :
    (sparkRender (some []) true true = SparkView.noData ∧
      sparkEffectInits true false (some []) = false) ∧
    (∃ p ps, (some [SeriesPoint.mk "2020-01" 1] : Option (List SeriesPoint))
      = some (p :: ps)) := by
  constructor
  · exact ⟨((spark_no_data_guard (some [])).1 (Or.inr rfl)).1 true true,
      ((spark_no_data_guard (some [])).1 (Or.inr rfl)).2 true false⟩
  · exact (spark_no_data_guard (some [SeriesPoint.mk "2020-01" 1])).2 true false rfl

end Gjeldsur
